import Mathlib

/-!
Verification development for the database-playground registry
(`useDBStore` in `src/app.tsx`) and its statement composer `combine`.

Strings from the JavaScript source are modelled as `String` / `List Char`;
the zustand/immer store is modelled as an explicit `RegistryState` threaded
through each operation.  External collaborators (the embedded postgres
engine, the HTTP fetch to the policy-evaluation service, clocks and random
names) are passed in as explicit oracle arguments.  An immer `set` whose
recipe throws produces no state change, so every failing branch returns the
input state unchanged, except for `execute`'s catch block which commits an
error history entry before re-raising.
-/

namespace DBStore

/-! ### Character and string utilities (JS `trimEnd`, `endsWith`, regex test) -/

-- Whitespace code points removed by JavaScript `String.prototype.trimEnd`
-- (the common ones exercised by this application).
def isJSWS (c : Char) : Bool :=
  c == ' ' || c == '\t' || c == '\n' || c == '\r' || c == '\x0b' ||
  c == '\x0c' || c == '\xa0' || c == '\uFEFF'

-- JS `existing.trimEnd()`: drop trailing whitespace.
def rtrim (s : List Char) : List Char :=
  (s.reverse.dropWhile isJSWS).reverse

-- JS `if (existing.endsWith(";")) existing = existing.slice(0, -1)`.
def stripSemi (s : List Char) : List Char :=
  if s.getLast? = some ';' then s.dropLast else s

-- JS `/where/i.test(existing)`: case-insensitive substring search.
def containsWhereCI (s : List Char) : Bool :=
  decide (String.toList ("where") <:+: s.map Char.toLower)

/-- Statement composer, translated from `combine` in `src/app.tsx`:
splices a `WHERE <condition>` filter fragment into an existing SQL text. -/
def combine (existing : List Char) (filter : Option (List Char)) : List Char :=
  match filter with
  | none => existing            -- JS `if (!filter) return existing` (undefined)
  | some f =>
    if f.isEmpty then existing  -- JS `if (!filter) return existing` (empty string)
    else
      let e := stripSemi (rtrim existing)
      let sansWhere := f.drop 6 -- JS `filter.slice(6)`
      if containsWhereCI e then e ++ String.toList ("\nAND ") ++ sansWhere
      else e ++ String.toList ("\nWHERE ") ++ sansWhere

def combineS (s : String) (f : Option String) : String :=
  (combine s.toList (f.map String.toList)).asString

-- JS `!query || !query.trim()`: empty or whitespace-only.
def isBlank (s : String) : Bool :=
  s.toList.all isJSWS

/-! ### JSON values (for the evaluation request body) -/

inductive JVal where
  | null
  | bool (b : Bool)
  | num (n : Int)
  | str (s : String)
  | arr (items : List JVal)
  | obj (fields : List (String × JVal))

/-! ### Data model, translated from the interfaces in `src/app.tsx` -/

structure QueryResult where
  affectedRows : Nat
  totalRecords : Nat
deriving DecidableEq

structure QueryHistory where
  error : Option String := none
  statement : String
  statementWithFilter : Option String := none
  createdAt : Option String := none
  executionTime : Option Nat := none   -- milliseconds
  results : Option (List QueryResult) := none
deriving DecidableEq

inductive TableType where
  | baseTable
  | view
deriving DecidableEq

structure TableColumn where
  type : String
  column : String
  nullable : Bool
  length : Option String := none
deriving DecidableEq

structure SchemaTable where
  table : String
  type : TableType
  columns : List TableColumn := []
deriving DecidableEq

structure DatabaseSchema where
  schema : String
  tables : List SchemaTable := []
deriving DecidableEq

-- One result set returned by the embedded engine (`Results` of pglite):
-- the fields `execute` reads are `affectedRows` (possibly absent) and `rows`.
abbrev Row := List String

structure PGResult where
  affectedRows : Option Nat := none
  rows : List Row := []
deriving DecidableEq

-- The parsed evaluation result: `execute`/`evaluate` only inspect its
-- `query` field; other outputs of the policy do not influence control flow.
structure EvalResult where
  query : Option String := none
deriving DecidableEq

-- Parsed JSON body of the evaluation endpoint's response.  `code` present
-- models JS `"code" in result`.
structure EvalResponse where
  code : Option String := none
  message : Option String := none
  result : Option EvalResult := none
deriving DecidableEq

/-- Modelled from the spec: `postgresTransformer` lives in `utils/postgres`,
which is not under `src/`; the spec describes `datagrid` as "a tabular
rendering of the last executed statement's result rows". -/
def postgresTransformer (rs : List PGResult) : List (List Row) :=
  rs.map PGResult.rows

structure Database where
  name : String
  createdAt : Option String := none
  description : Option String := none
  history : List QueryHistory := []
  schema : List DatabaseSchema := []
  erd : String := ""
  query : Option String := none
  rego : Option String := none
  input : Option JVal := none
  data : Option JVal := none
  evaluated : Option EvalResult := none
  filter : Option String := none
  datagrid : Option (List (List Row)) := none

/-- Registry state: the `active` session pointer (its engine handle is an
external oracle, so only the name is modelled) and the `databases` record. -/
structure RegistryState where
  active : Option String := none
  databases : String → Option Database := fun _ => none

def initialState : RegistryState := {}

-- Record assignment `state.databases[k] = v` (also used for `delete` with a
-- companion below).
def setDB (f : String → Option Database) (k : String) (v : Database) :
    String → Option Database :=
  fun n => if n = k then some v else f n

def delDB (f : String → Option Database) (k : String) :
    String → Option Database :=
  fun n => if n = k then none else f n

/-! ### Errors.  The spec's taxonomy names for the failure modes of the code:
`noActiveConnection` and `notFound` stand for the `TypeError`s raised by
dereferencing `undefined` (`get().active!` with no session, indexing a
missing record entry inside an immer recipe). -/

inductive Err where
  | duplicateName (name : String)
  | notFound (name : String)
  | noActiveConnection
  | emptyQuery
  | transport (statusText : String)
  | evaluation (message : Option String)
  | execution (message : String)
deriving DecidableEq

-- `(error as Error).message` for each modelled failure
-- (`new Error(undefined)` has message `""`).
def Err.message : Err → String
  | .duplicateName n => ("db with name: ") ++ n ++ (" already exists")
  | .notFound _ => ("Cannot read properties of undefined")
  | .noActiveConnection => ("Cannot read properties of undefined")
  | .emptyQuery => ("no query to run")
  | .transport s => ("EOPA: ") ++ s
  | .evaluation m => m.getD ("")
  | .execution m => m

/-! ### Sample-data pane defaults, translated from the tables in `src/app.tsx` -/

def defaultRego : String := ""
def defaultInput : JVal := .obj []
def defaultSql : String := "SELECT * FROM information_schema.tables"

def sampleRego (k : String) : Option String :=
  if k = "orders" then
    some ("package conditions\nimport rego.v1\n\nfilter[\"users.name\"] := input.user\nfilter[\"products.price\"] := \x7b\"lte\": 500\x7d if input.budget == \"low\"\n\nexpanded := ucast.expand(filter)\nquery := ucast.as_sql(expanded, \"postgres\", \x7b\"users\": \x7b\"$self\": \"u\"\x7d, \"products\": \x7b\"$self\": \"p\"\x7d\x7d)\n")
  else if k = "schools" then
    some ("package conditions\nimport rego.v1\n\nfilter[\"students.name\"] := input.user\n\nexpanded := ucast.expand(filter)\nquery := ucast.as_sql(expanded, \"postgres\", \x7b\"students\": \x7b\"$self\": \"s1\"\x7d\x7d)\n")
  else none

def sampleInput (k : String) : Option JVal :=
  if k = "orders" then
    some (.obj [("user", .str ("Emma Clark")), ("budget", .str ("low"))])
  else if k = "schools" then
    some (.obj [("user", .str ("Emma Johnson"))])
  else none

def sampleSql (k : String) : Option String :=
  if k = "orders" then
    some ("select u.name as user, p.name as product, p.price\nfrom orders o\ninner join users u on o.user_id = u.id\ninner join order_items i on o.order_id = i.order_id\ninner join products p on i.product_id = p.product_id\n")
  else if k = "schools" then
    some ("SELECT DISTINCT s2.*\nFROM student_subjects ss1\nNATURAL JOIN students s1\nJOIN student_subjects ss2 ON ss1.subject_id = ss2.subject_id\nJOIN students s2 ON ss2.student_id = s2.student_id\n")
  else none

/-! ### Oracles for external collaborators -/

-- HTTP layer: endpoint and JSON body in, transport failure (non-ok status
-- text) or parsed response body out.
abbrev FetchFn := String → JVal → Except String EvalResponse

-- Embedded engine: statement text in, engine error message or result sets out.
abbrev ExecFn := String → Except String (List PGResult)

/-! ### Operations, translated from the store in `src/app.tsx`.
Each returns the post-state plus an outcome; an error outcome with the input
state returned models an exception with no state committed. -/

/-- Translation of `create`: duplicate-name guard, then a single commit that
sets `active` and the fresh `Database` record. -/
def create (st : RegistryState) (name : String) (description : Option String)
    (now : String) (schema : List DatabaseSchema) (erd : String) :
    RegistryState × Except Err Unit :=
  if (st.databases name).isSome then
    (st, .error (.duplicateName name))
  else
    ({ active := some name,
       databases := setDB st.databases name
         ({ name := name, description := description, createdAt := some now,
            query := some ("SELECT * FROM information_schema.tables"),
            rego := some defaultRego, input := some defaultInput,
            history := [], erd := erd, schema := schema }) },
     .ok ())

/-- Translation of `import` (a Lean keyword, hence `importDB`): generated
name `key-rand`, panes pre-populated from the sample tables with fallback to
the defaults, single commit setting `active` and the record. -/
def importDB (st : RegistryState) (key : String) (description : Option String)
    (rand : Nat) (now : String) (schema : List DatabaseSchema) (erd : String) :
    RegistryState × Except Err Unit :=
  let name := key ++ ("-") ++ toString rand
  ({ active := some name,
     databases := setDB st.databases name
       ({ name := name, description := description, createdAt := some now,
          query := some ((sampleSql key).getD defaultSql),
          rego := some ((sampleRego key).getD defaultRego),
          input := some ((sampleInput key).getD defaultInput),
          history := [], erd := erd, schema := schema }) },
   .ok ())

/-- Translation of `update`: mutates `description`/`createdAt` of an existing
entry; on a missing name the immer recipe throws, so nothing is committed. -/
def update (st : RegistryState) (name : String) (description : Option String)
    (now : String) : RegistryState × Except Err Unit :=
  match st.databases name with
  | none => (st, .error (.notFound name))
  | some db =>
    ({ st with
         databases := setDB st.databases name
           ({ db with description := description, createdAt := some now }) },
     .ok ())

/-- Translation of `remove`: unconditionally clears `active` and deletes the
entry (JS `delete` succeeds on a missing key too). -/
def remove (st : RegistryState) (name : String) :
    RegistryState × Except Err Unit :=
  ({ active := none, databases := delDB st.databases name }, .ok ())

/-- Translation of `connect`: refreshes `erd`/`schema` of an existing entry
and points `active` at it; on a missing name the recipe throws, so neither
`active` nor the record changes. -/
def connect (st : RegistryState) (name : String)
    (schema : List DatabaseSchema) (erd : String) :
    RegistryState × Except Err Unit :=
  match st.databases name with
  | none => (st, .error (.notFound name))
  | some db =>
    ({ active := some name,
       databases := setDB st.databases name
         ({ db with erd := erd, schema := schema }) },
     .ok ())

/-- Fixed relative endpoint of the policy-evaluation service. -/
def evalEndpoint : String := "/v0/preview/conditions"

/-- Request body sent by `evaluate`, translated from the source:
`req = \x7b input, data, rego_modules: \x7b "main.rego": rego \x7d \x7d`
(`JSON.stringify` omits fields whose value is `undefined`). -/
def mkEvalRequest (input data : Option JVal) (rego : String) : JVal :=
  .obj ((input.map (fun i => (("input"), i))).toList ++
        (data.map (fun d => (("data"), d))).toList ++
        [(("rego_modules"), .obj [(("main.rego"), .str rego)])])

/-- Modelled from the spec: the request shape claimed in section 4.3,
`\x7b input, data, policy_modules: \x7b "main": policyText \x7d \x7d`, kept
as a separate definition to be compared against `mkEvalRequest` above. -/
def mkEvalRequestSpec (input data : Option JVal) (rego : String) : JVal :=
  .obj ((input.map (fun i => (("input"), i))).toList ++
        (data.map (fun d => (("data"), d))).toList ++
        [(("policy_modules"), .obj [(("main"), .str rego)])])

/-- Translation of `evaluate`: requires an active session and its record,
POSTs the request, maps a non-ok response to a transport error, a body with
a `code` field to an evaluation error, and otherwise commits
`rego`/`evaluated`/`filter` and returns the full parsed body. -/
def evaluate (st : RegistryState) (rego : String) (fetch : FetchFn) :
    RegistryState × Except Err EvalResponse :=
  match st.active with
  | none => (st, .error .noActiveConnection)
  | some name =>
    match st.databases name with
    | none => (st, .error (.notFound name))
    | some db =>
      match fetch evalEndpoint (mkEvalRequest db.input db.data rego) with
      | .error statusText => (st, .error (.transport statusText))
      | .ok body =>
        if body.code.isSome then (st, .error (.evaluation body.message))
        else
          ({ st with
               databases := setDB st.databases name
                 ({ db with rego := some rego, evaluated := body.result,
                            filter := body.result.bind EvalResult.query }) },
           .ok body)

/-- The evaluation step of `execute`:
`evalFilter = rego && (await get().evaluate(rego))?.result?.query`.
An absent or empty (falsy) `rego` skips evaluation; the JS value `""` left
in `evalFilter` by an empty `rego` behaves exactly like `undefined` in
`combine`, so both are modelled as `none`. -/
def evalStep (st : RegistryState) (rego : Option String) (fetch : FetchFn) :
    RegistryState × Except Err (Option String) :=
  match rego with
  | none => (st, .ok none)
  | some r =>
    if r = ("") then (st, .ok none)
    else
      match evaluate st r fetch with
      | (st2, .ok body) => (st2, .ok (body.result.bind EvalResult.query))
      | (st2, .error e) => (st2, .error e)

/-- The body of `execute`'s try block: blank-query guard, statement
composition, engine call; yields the executed statement and result sets. -/
def runStmt (query : String) (evalFilter : Option String) (filter : Bool)
    (ex : ExecFn) : Except Err (String × List PGResult) :=
  if isBlank query then .error .emptyQuery
  else
    let query0 := if filter then combineS query evalFilter else query
    match ex query0 with
    | .error msg => .error (.execution msg)
    | .ok rs => .ok (query0, rs)

/-- Translation of `execute`.  The evaluation step runs before the try
block, so its failure is re-raised without any history entry; a try-block
failure commits `query`, an empty `datagrid` and an error history entry
before re-raising; success commits `query`, the transformed `datagrid` and
a history entry with per-statement counts. -/
def execute (st : RegistryState) (query : String) (rego : Option String)
    (filter : Bool) (fetch : FetchFn) (ex : ExecFn)
    (createdAt : String) (elapsed : Nat) :
    RegistryState × Except Err (List PGResult) :=
  match st.active with
  | none => (st, .error .noActiveConnection)
  | some name =>
    match evalStep st rego fetch with
    | (st2, .error e) => (st2, .error e)
    | (st2, .ok evalFilter) =>
      match st2.databases name with
      | none => (st2, .error (.notFound name))
      | some db =>
        match runStmt query evalFilter filter ex with
        | .ok (query0, rs) =>
          ({ st2 with
               databases := setDB st2.databases name
                 ({ db with query := some query,
                            datagrid := some (postgresTransformer rs),
                            history := db.history ++
                              [{ statement := query,
                                 statementWithFilter := some query0,
                                 createdAt := some createdAt,
                                 executionTime := some elapsed,
                                 results := some (rs.map (fun r =>
                                   { affectedRows := r.affectedRows.getD 0,
                                     totalRecords := r.rows.length })) }] }) },
           .ok rs)
        | .error e =>
          ({ st2 with
               databases := setDB st2.databases name
                 ({ db with query := some query,
                            datagrid := some [],
                            history := db.history ++
                              [{ statement := query,
                                 createdAt := some createdAt,
                                 error := some e.message,
                                 executionTime := some elapsed }] }) },
           .error e)

/-- Translation of `reload`: requires an active session, refreshes
`erd`/`schema` of its record. -/
def reload (st : RegistryState) (schema : List DatabaseSchema) (erd : String) :
    RegistryState × Except Err Unit :=
  match st.active with
  | none => (st, .error .noActiveConnection)
  | some name =>
    match st.databases name with
    | none => (st, .error (.notFound name))
    | some db =>
      ({ st with
           databases := setDB st.databases name
             ({ db with erd := erd, schema := schema }) },
       .ok ())

/-! ### Operation alphabet for arbitrary call sequences -/

inductive Op where
  | opCreate (name : String) (description : Option String) (now : String)
      (schema : List DatabaseSchema) (erd : String)
  | opImport (key : String) (description : Option String) (rand : Nat)
      (now : String) (schema : List DatabaseSchema) (erd : String)
  | opUpdate (name : String) (description : Option String) (now : String)
  | opRemove (name : String)
  | opConnect (name : String) (schema : List DatabaseSchema) (erd : String)
  | opEvaluate (rego : String) (fetch : FetchFn)
  | opExecute (query : String) (rego : Option String) (filter : Bool)
      (fetch : FetchFn) (ex : ExecFn) (createdAt : String) (elapsed : Nat)
  | opReload (schema : List DatabaseSchema) (erd : String)

/-- Post-state of one operation, success or failure alike. -/
def stepOp (st : RegistryState) : Op → RegistryState
  | .opCreate n d now sch erd => (create st n d now sch erd).1
  | .opImport k d r now sch erd => (importDB st k d r now sch erd).1
  | .opUpdate n d now => (update st n d now).1
  | .opRemove n => (remove st n).1
  | .opConnect n sch erd => (connect st n sch erd).1
  | .opEvaluate r f => (evaluate st r f).1
  | .opExecute q r fl f ex c e => (execute st q r fl f ex c e).1
  | .opReload sch erd => (reload st sch erd).1

/-- Registry invariant: `active`, if present, names an existing entry. -/
def Inv (st : RegistryState) : Prop :=
  ∀ n, st.active = some n → (st.databases n).isSome = true

/-! ### Concrete fixtures used to instantiate the theorems below -/

def dbFix : Database :=
  { name := "db", query := some ("old"),
    input := some (.obj [(("user"), .str ("Emma Clark"))]),
    data := some (.obj []) }

def stFix : RegistryState :=
  { active := some ("db"),
    databases := fun n => if n = ("db") then some dbFix else none }

-- A response carrying a structured error, as in the spec's example.
def badBody : EvalResponse :=
  { code := some ("invalid"), message := some ("bad rule") }

def badFetch : FetchFn := fun _ _ => .ok badBody

def okBody : EvalResponse :=
  { result := some { query := some ("WHERE x = 1") } }

def okFetch : FetchFn := fun _ _ => .ok okBody

def rsFix : List PGResult :=
  [{ affectedRows := some 2, rows := [[("r1")], [("r2")]] }]

def execOk : ExecFn := fun _ => .ok rsFix

def execBad : ExecFn := fun _ => .error ("syntax error")

/-! ### Helper lemmas about the statement composer -/

lemma rtrim_decomp (s : List Char) :
    rtrim s ++ (s.reverse.takeWhile isJSWS).reverse = s ∧
    ∀ c ∈ (s.reverse.takeWhile isJSWS).reverse, isJSWS c = true := by
  constructor
  · rw [rtrim, ← List.reverse_append, List.takeWhile_append_dropWhile,
      List.reverse_reverse]
  · intro c hc
    exact List.mem_takeWhile_imp (List.mem_reverse.mp hc)

lemma stripSemi_decomp (t : List Char) :
    ∃ d, stripSemi t ++ d = t ∧ ∀ c ∈ d, c = ';' := by
  by_cases h : t.getLast? = some ';'
  · refine ⟨[';'], ?_, by simp⟩
    simp only [stripSemi, if_pos h]
    exact List.dropLast_append_getLast? _ h
  · exact ⟨[], by simp [stripSemi, if_neg h], by simp⟩

-- No part of an occurrence of `w` can overlap a suffix of characters
-- that all satisfy `P` when no character of `w` satisfies `P`.
lemma infix_left_of_marked {α : Type} (P : α → Prop) (w : List α)
    (hw : w ≠ []) (hwP : ∀ c ∈ w, ¬ P c) :
    ∀ b : List α, (∀ c ∈ b, P c) → ∀ a : List α, w <:+: a ++ b → w <:+: a := by
  intro b
  induction b using List.reverseRecOn with
  | nil => intro _ a h; simpa using h
  | append_singleton b' x ih =>
    intro hb a h
    have hx : P x := hb x (by simp)
    obtain ⟨l, r, hlr⟩ := h
    have hsplit : w <:+: a ++ b' := by
      rcases List.eq_nil_or_concat r with rfl | ⟨r', y, rfl⟩
      · exfalso
        have hconc : l ++ w = (a ++ b') ++ [x] := by
          simpa [List.append_assoc] using hlr
        have hlast : (l ++ w).getLast? = some x := by
          rw [hconc]; exact List.getLast?_concat _
        have hlast2 : w.getLast? = some x := by
          rwa [List.getLast?_append_of_ne_nil l hw] at hlast
        obtain ⟨hne, rfl⟩ := List.mem_getLast?_eq_getLast hlast2
        exact hwP _ (List.getLast_mem hne) hx
      · have h2 : (l ++ w ++ r') ++ [y] = (a ++ b') ++ [x] := by
          simpa [List.append_assoc, List.concat_eq_append] using hlr
        have h3 := (List.append_inj' h2 rfl).1
        exact ⟨l, r', h3⟩
    exact ih (fun c hc => hb c (by simp [hc])) a hsplit

lemma isJSWS_toLower {c : Char} (h : isJSWS c = true) : c.toLower = c := by
  simp only [isJSWS, Bool.or_eq_true, beq_iff_eq] at h
  rcases h with (((((((h | h) | h) | h) | h) | h) | h) | h) <;> subst h <;> decide

lemma dropped_toLower {c : Char} (h : c = ';' ∨ isJSWS c = true) :
    c.toLower = c := by
  rcases h with rfl | h
  · decide
  · exact isJSWS_toLower h

lemma processed_decomp (s : List Char) :
    ∃ d, stripSemi (rtrim s) ++ d = s ∧ ∀ c ∈ d, c = ';' ∨ isJSWS c = true := by
  obtain ⟨h1, h2⟩ := rtrim_decomp s
  obtain ⟨d2, hd2, hc2⟩ := stripSemi_decomp (rtrim s)
  refine ⟨d2 ++ (s.reverse.takeWhile isJSWS).reverse, ?_, ?_⟩
  · rw [← List.append_assoc, hd2, h1]
  · intro c hc
    rcases List.mem_append.mp hc with hc | hc
    · exact Or.inl (hc2 c hc)
    · exact Or.inr (h2 c hc)

lemma containsWhereCI_processed {s : List Char} (h : containsWhereCI s = true) :
    containsWhereCI (stripSemi (rtrim s)) = true := by
  rw [containsWhereCI, decide_eq_true_iff] at h ⊢
  obtain ⟨d, hd, hdq⟩ := processed_decomp s
  have hmap : (stripSemi (rtrim s)).map Char.toLower ++ d.map Char.toLower
      = s.map Char.toLower := by
    rw [← List.map_append, hd]
  rw [← hmap] at h
  refine infix_left_of_marked (fun c => c = ';' ∨ isJSWS c = true)
      (String.toList ("where")) (by decide) (by decide)
      (d.map Char.toLower) ?_ _ h
  intro c hc
  obtain ⟨c', hc', rfl⟩ := List.mem_map.mp hc
  have hq := hdq c' hc'
  rwa [dropped_toLower hq]

lemma containsWhereCI_of_processed {s : List Char}
    (h : containsWhereCI (stripSemi (rtrim s)) = true) :
    containsWhereCI s = true := by
  rw [containsWhereCI, decide_eq_true_iff] at h ⊢
  obtain ⟨d, hd, _⟩ := processed_decomp s
  obtain ⟨l, r, hlr⟩ := h
  refine ⟨l, r ++ d.map Char.toLower, ?_⟩
  rw [← hd, List.map_append, ← hlr]
  simp [List.append_assoc]

lemma containsWhereCI_processed_false {s : List Char}
    (h : containsWhereCI s = false) :
    containsWhereCI (stripSemi (rtrim s)) = false := by
  cases hh : containsWhereCI (stripSemi (rtrim s)) with
  | false => rfl
  | true => rw [containsWhereCI_of_processed hh] at h; cases h

lemma combine_fragment (existing cond : List Char) :
    combine existing (some (String.toList ("WHERE ") ++ cond)) =
      if containsWhereCI (stripSemi (rtrim existing))
      then stripSemi (rtrim existing) ++ String.toList ("\nAND ") ++ cond
      else stripSemi (rtrim existing) ++ String.toList ("\nWHERE ") ++ cond := by
  have hne : (String.toList ("WHERE ") ++ cond).isEmpty = false := by
    cases cond <;> rfl
  have hdrop : (String.toList ("WHERE ") ++ cond).drop 6 = cond := by
    have h6 : (String.toList ("WHERE ")).length = 6 := rfl
    rw [← h6, List.drop_left]
  simp only [combine, hne, Bool.false_eq_true, if_false, hdrop]

/-! ### Claim theorems for the statement composer -/

/-- C6: when the existing SQL already contains the case-insensitive token
`WHERE` anywhere and the filter fragment has the literal form
`WHERE <condition>`, `combine` returns the existing SQL with trailing
whitespace trimmed and at most one trailing `;` stripped, followed by a
newline and `AND <condition>`; in particular on the spec's example input. -/
theorem combine_existing_where (existing cond : List Char)
    (h : containsWhereCI existing = true) :
    combine existing (some (String.toList ("WHERE ") ++ cond)) =
      stripSemi (rtrim existing) ++ String.toList ("\nAND ") ++ cond ∧
    combine (String.toList ("SELECT * FROM t WHERE y = 2"))
        (some (String.toList ("WHERE x = 1"))) =
      String.toList ("SELECT * FROM t WHERE y = 2\nAND x = 1") := by
  refine ⟨?_, by decide⟩
  rw [combine_fragment, if_pos (containsWhereCI_processed h)]

/-- Witness for `combine_existing_where`: its hypothesis holds at the spec's
example input, and the theorem applies there. -/
theorem combine_existing_where_witness :
    containsWhereCI (String.toList ("SELECT * FROM t WHERE y = 2")) = true ∧
    combine (String.toList ("SELECT * FROM t WHERE y = 2"))
        (some (String.toList ("WHERE ") ++ String.toList ("x = 1"))) =
      stripSemi (rtrim (String.toList ("SELECT * FROM t WHERE y = 2"))) ++
        String.toList ("\nAND ") ++ String.toList ("x = 1") :=
  ⟨by decide, (combine_existing_where (String.toList
      ("SELECT * FROM t WHERE y = 2")) (String.toList ("x = 1")) (by decide)).1⟩

/-- C7: when the existing SQL does not contain the case-insensitive token
`WHERE`, `combine` trims trailing whitespace, strips at most one trailing
`;`, strips the 6-character keyword of the fragment and appends a newline
and `WHERE <condition>`; on an absent or empty fragment the existing SQL is
returned unchanged; in particular on the spec's example input. -/
theorem combine_no_where (existing cond : List Char)
    (h : containsWhereCI existing = false) :
    combine existing (some (String.toList ("WHERE ") ++ cond)) =
      stripSemi (rtrim existing) ++ String.toList ("\nWHERE ") ++ cond ∧
    combine (String.toList ("SELECT * FROM t;"))
        (some (String.toList ("WHERE x = 1"))) =
      String.toList ("SELECT * FROM t\nWHERE x = 1") ∧
    ∀ e : List Char, combine e none = e ∧ combine e (some []) = e := by
  have hf := containsWhereCI_processed_false h
  refine ⟨?_, by decide, fun e => ⟨rfl, rfl⟩⟩
  rw [combine_fragment, if_neg (by simp [hf])]

/-- Witness for `combine_no_where`: its hypothesis holds at the spec's
example input, and the theorem applies there. -/
theorem combine_no_where_witness :
    containsWhereCI (String.toList ("SELECT * FROM t;")) = false ∧
    combine (String.toList ("SELECT * FROM t;"))
        (some (String.toList ("WHERE ") ++ String.toList ("x = 1"))) =
      stripSemi (rtrim (String.toList ("SELECT * FROM t;"))) ++
        String.toList ("\nWHERE ") ++ String.toList ("x = 1") :=
  ⟨by decide, (combine_no_where (String.toList ("SELECT * FROM t;"))
      (String.toList ("x = 1")) (by decide)).1⟩

/-! ### Characterization lemmas for the registry operations -/

lemma evaluate_no_active {st : RegistryState} {r : String} {f : FetchFn}
    (h : st.active = none) :
    evaluate st r f = (st, .error .noActiveConnection) := by
  simp only [evaluate, h]

lemma evaluate_not_found {st : RegistryState} {name r : String} {f : FetchFn}
    (h : st.active = some name) (h2 : st.databases name = none) :
    evaluate st r f = (st, .error (.notFound name)) := by
  simp only [evaluate, h, h2]

lemma evaluate_transport {st : RegistryState} {name r s : String}
    {db : Database} {f : FetchFn} (h : st.active = some name)
    (h2 : st.databases name = some db)
    (h3 : f evalEndpoint (mkEvalRequest db.input db.data r) = .error s) :
    evaluate st r f = (st, .error (.transport s)) := by
  simp only [evaluate, h, h2, h3]

lemma evaluate_code_error {st : RegistryState} {name r : String}
    {db : Database} {f : FetchFn} {body : EvalResponse}
    (h : st.active = some name) (h2 : st.databases name = some db)
    (h3 : f evalEndpoint (mkEvalRequest db.input db.data r) = .ok body)
    (h4 : body.code.isSome = true) :
    evaluate st r f = (st, .error (.evaluation body.message)) := by
  simp only [evaluate, h, h2, h3, h4, if_true]

lemma evaluate_ok {st : RegistryState} {name r : String}
    {db : Database} {f : FetchFn} {body : EvalResponse}
    (h : st.active = some name) (h2 : st.databases name = some db)
    (h3 : f evalEndpoint (mkEvalRequest db.input db.data r) = .ok body)
    (h4 : body.code = none) :
    evaluate st r f =
      ({ st with
           databases := setDB st.databases name
             ({ db with rego := some r, evaluated := body.result,
                        filter := body.result.bind EvalResult.query }) },
       .ok body) := by
  simp only [evaluate, h, h2, h3, h4, Option.isSome_none, Bool.false_eq_true,
    if_false]

lemma evaluate_cases (st : RegistryState) (r : String) (f : FetchFn) :
    (evaluate st r f).1 = st ∨
    ∃ (name : String) (db : Database) (body : EvalResponse),
      st.active = some name ∧ st.databases name = some db ∧
      (evaluate st r f).1 =
        { st with
            databases := setDB st.databases name
              ({ db with rego := some r, evaluated := body.result,
                         filter := body.result.bind EvalResult.query }) } := by
  rcases h1 : st.active with _ | name
  · left; rw [evaluate_no_active h1]
  · rcases h2 : st.databases name with _ | db
    · left; rw [evaluate_not_found h1 h2]
    · rcases h3 : f evalEndpoint (mkEvalRequest db.input db.data r) with s | body
      · left; rw [evaluate_transport h1 h2 h3]
      · rcases h4 : body.code with _ | cc
        · right
          refine ⟨name, db, body, rfl, h2, ?_⟩
          rw [evaluate_ok h1 h2 h3 h4, h1]
        · left
          have h4' : body.code.isSome = true := by rw [h4]; rfl
          rw [evaluate_code_error h1 h2 h3 h4']

lemma evaluate_fail_unchanged {st : RegistryState} {r : String} {f : FetchFn}
    {e : Err} (he : (evaluate st r f).2 = .error e) :
    (evaluate st r f).1 = st := by
  rcases h1 : st.active with _ | name
  · rw [evaluate_no_active h1]
  · rcases h2 : st.databases name with _ | db
    · rw [evaluate_not_found h1 h2]
    · rcases h3 : f evalEndpoint (mkEvalRequest db.input db.data r) with s | body
      · rw [evaluate_transport h1 h2 h3]
      · rcases h4 : body.code with _ | cc
        · rw [evaluate_ok h1 h2 h3 h4] at he
          exact absurd he (by simp)
        · have h4' : body.code.isSome = true := by rw [h4]; rfl
          rw [evaluate_code_error h1 h2 h3 h4']

lemma evaluate_fst_active (st : RegistryState) (r : String) (f : FetchFn) :
    (evaluate st r f).1.active = st.active := by
  rcases evaluate_cases st r f with hc | ⟨name, db, body, h1, h2, hc⟩ <;>
    rw [hc]

lemma evalStep_fst_eval {st : RegistryState} {r : String} {f : FetchFn}
    (hr : r ≠ ("")) :
    (evalStep st (some r) f).1 = (evaluate st r f).1 := by
  simp only [evalStep, if_neg hr]
  rcases h : evaluate st r f with ⟨s2, res⟩
  rcases res with e | body <;> rfl

lemma evalStep_fst_active (st : RegistryState) (rego : Option String)
    (f : FetchFn) :
    (evalStep st rego f).1.active = st.active := by
  rcases rego with _ | r
  · rfl
  · by_cases hr : r = ("")
    · subst hr; rfl
    · rw [evalStep_fst_eval hr, evaluate_fst_active]

lemma evalStep_fail_unchanged {st : RegistryState} {rego : Option String}
    {f : FetchFn} {st2 : RegistryState} {e : Err}
    (h : evalStep st rego f = (st2, .error e)) : st2 = st := by
  rcases rego with _ | r
  · exact absurd h (by simp [evalStep])
  · by_cases hr : r = ("")
    · subst hr; exact absurd h (by simp [evalStep])
    · rcases he : evaluate st r f with ⟨s2, res⟩
      have hs2 : s2 = (evaluate st r f).1 := by rw [he]
      rcases res with e2 | body
      · have hh : evalStep st (some r) f = (s2, .error e2) := by
          simp only [evalStep, if_neg hr, he]
        rw [hh] at h
        have h1 : st2 = s2 := (congrArg Prod.fst h).symm
        have h2 : (evaluate st r f).2 = .error e2 := by rw [he]
        rw [h1, hs2]
        exact evaluate_fail_unchanged h2
      · have hh : evalStep st (some r) f =
            (s2, .ok (body.result.bind EvalResult.query)) := by
          simp only [evalStep, if_neg hr, he]
        rw [hh] at h
        exact absurd (congrArg Prod.snd h) (by simp)

lemma execute_no_active {st : RegistryState} {q : String}
    {rego : Option String} {fl : Bool} {f : FetchFn} {ex : ExecFn}
    {c : String} {el : Nat} (h : st.active = none) :
    execute st q rego fl f ex c el = (st, .error .noActiveConnection) := by
  simp only [execute, h]

lemma execute_eval_fail {st st2 : RegistryState} {name q : String}
    {rego : Option String} {fl : Bool} {f : FetchFn} {ex : ExecFn}
    {c : String} {el : Nat} {e : Err}
    (h : st.active = some name) (h2 : evalStep st rego f = (st2, .error e)) :
    execute st q rego fl f ex c el = (st2, .error e) := by
  simp only [execute, h, h2]

lemma execute_not_found {st st2 : RegistryState} {name q : String}
    {rego : Option String} {fl : Bool} {f : FetchFn} {ex : ExecFn}
    {c : String} {el : Nat} {evF : Option String}
    (h : st.active = some name) (h2 : evalStep st rego f = (st2, .ok evF))
    (h3 : st2.databases name = none) :
    execute st q rego fl f ex c el = (st2, .error (.notFound name)) := by
  simp only [execute, h, h2, h3]

lemma execute_ok {st st2 : RegistryState} {name q query0 : String}
    {db : Database} {rego : Option String} {fl : Bool} {f : FetchFn}
    {ex : ExecFn} {c : String} {el : Nat} {evF : Option String}
    {rs : List PGResult}
    (h : st.active = some name) (h2 : evalStep st rego f = (st2, .ok evF))
    (h3 : st2.databases name = some db)
    (h4 : runStmt q evF fl ex = .ok (query0, rs)) :
    execute st q rego fl f ex c el =
      ({ st2 with
           databases := setDB st2.databases name
             ({ db with query := some q,
                        datagrid := some (postgresTransformer rs),
                        history := db.history ++
                          [{ statement := q,
                             statementWithFilter := some query0,
                             createdAt := some c, executionTime := some el,
                             results := some (rs.map (fun rr =>
                               { affectedRows := rr.affectedRows.getD 0,
                                 totalRecords := rr.rows.length })) }] }) },
       .ok rs) := by
  simp only [execute, h, h2, h3, h4]

lemma execute_run_fail {st st2 : RegistryState} {name q : String}
    {db : Database} {rego : Option String} {fl : Bool} {f : FetchFn}
    {ex : ExecFn} {c : String} {el : Nat} {evF : Option String} {e : Err}
    (h : st.active = some name) (h2 : evalStep st rego f = (st2, .ok evF))
    (h3 : st2.databases name = some db)
    (h4 : runStmt q evF fl ex = .error e) :
    execute st q rego fl f ex c el =
      ({ st2 with
           databases := setDB st2.databases name
             ({ db with query := some q, datagrid := some [],
                        history := db.history ++
                          [{ statement := q, createdAt := some c,
                             error := some e.message,
                             executionTime := some el }] }) },
       .error e) := by
  simp only [execute, h, h2, h3, h4]

lemma reload_ok {st : RegistryState} {name : String} {db : Database}
    {sch : List DatabaseSchema} {erd : String}
    (h : st.active = some name) (h2 : st.databases name = some db) :
    reload st sch erd =
      ({ st with
           databases := setDB st.databases name
             ({ db with erd := erd, schema := sch }) }, .ok ()) := by
  simp only [reload, h, h2]

/-! ### Invariant-preservation lemmas -/

lemma inv_point (f : String → Option Database) (name : String) (v : Database) :
    Inv { active := some name, databases := setDB f name v } := by
  intro m hm
  have hm2 : some name = some m := hm
  injection hm2 with hm2
  subst hm2
  simp [setDB]

lemma inv_setDB_active {st : RegistryState} {name : String} (v : Database)
    (ha : st.active = some name) :
    Inv { st with databases := setDB st.databases name v } := by
  intro m hm
  have hm2 : st.active = some m := hm
  have heq : some name = some m := ha.symm.trans hm2
  injection heq with heq
  subst heq
  simp [setDB]

lemma inv_setDB_other {st : RegistryState} {name : String} (v : Database)
    (h : Inv st) :
    Inv { st with databases := setDB st.databases name v } := by
  intro m hm
  have hm2 : st.active = some m := hm
  by_cases hmn : m = name
  · subst hmn; simp [setDB]
  · have hsome := h m hm2
    simp [setDB, hmn, hsome]

lemma create_inv (st : RegistryState) (n : String) (d : Option String)
    (now : String) (sch : List DatabaseSchema) (erd : String) (h : Inv st) :
    Inv (create st n d now sch erd).1 := by
  unfold create
  by_cases hc : (st.databases n).isSome = true
  · rw [if_pos hc]; exact h
  · rw [if_neg hc]; exact inv_point _ _ _

lemma importDB_inv (st : RegistryState) (k : String) (d : Option String)
    (rand : Nat) (now : String) (sch : List DatabaseSchema) (erd : String) :
    Inv (importDB st k d rand now sch erd).1 :=
  inv_point _ _ _

lemma update_inv (st : RegistryState) (n : String) (d : Option String)
    (now : String) (h : Inv st) : Inv (update st n d now).1 := by
  unfold update
  rcases h2 : st.databases n with _ | db
  · exact h
  · exact inv_setDB_other _ h

lemma remove_inv (st : RegistryState) (n : String) : Inv (remove st n).1 := by
  intro m hm
  exact Option.noConfusion hm

lemma connect_inv (st : RegistryState) (n : String)
    (sch : List DatabaseSchema) (erd : String) (h : Inv st) :
    Inv (connect st n sch erd).1 := by
  unfold connect
  rcases h2 : st.databases n with _ | db
  · exact h
  · exact inv_point _ _ _

lemma evaluate_inv (st : RegistryState) (r : String) (f : FetchFn)
    (h : Inv st) : Inv (evaluate st r f).1 := by
  rcases evaluate_cases st r f with hc | ⟨name, db, body, h1, h2, hc⟩
  · rwa [hc]
  · rw [hc]; exact inv_setDB_active _ h1

lemma evalStep_inv (st : RegistryState) (rego : Option String) (f : FetchFn)
    (h : Inv st) : Inv (evalStep st rego f).1 := by
  rcases rego with _ | r
  · exact h
  · by_cases hr : r = ("")
    · subst hr; exact h
    · rw [evalStep_fst_eval hr]; exact evaluate_inv st r f h

lemma execute_inv (st : RegistryState) (q : String) (rego : Option String)
    (fl : Bool) (f : FetchFn) (ex : ExecFn) (c : String) (el : Nat)
    (h : Inv st) : Inv (execute st q rego fl f ex c el).1 := by
  rcases h1 : st.active with _ | name
  · rw [execute_no_active h1]; exact h
  · rcases h2 : evalStep st rego f with ⟨st2, res⟩
    have hst2a : st2.active = st.active := by
      have ha := evalStep_fst_active st rego f
      rwa [h2] at ha
    have hst2i : Inv st2 := by
      have hi := evalStep_inv st rego f h
      rwa [h2] at hi
    rcases res with e | evF
    · rw [execute_eval_fail h1 h2]; exact hst2i
    · rcases h3 : st2.databases name with _ | db
      · rw [execute_not_found h1 h2 h3]; exact hst2i
      · have hact : st2.active = some name := hst2a.trans h1
        rcases h4 : runStmt q evF fl ex with e | ⟨q0, rs⟩
        · rw [execute_run_fail h1 h2 h3 h4]
          exact inv_setDB_active _ hact
        · rw [execute_ok h1 h2 h3 h4]
          exact inv_setDB_active _ hact

lemma reload_inv (st : RegistryState) (sch : List DatabaseSchema)
    (erd : String) (h : Inv st) : Inv (reload st sch erd).1 := by
  rcases h1 : st.active with _ | name
  · simp only [reload, h1]; exact h
  · rcases h2 : st.databases name with _ | db
    · simp only [reload, h1, h2]; exact h
    · rw [reload_ok h1 h2]
      exact inv_setDB_active _ h1

lemma stepOp_inv (st : RegistryState) (op : Op) (h : Inv st) :
    Inv (stepOp st op) := by
  cases op with
  | opCreate n d now sch erd => exact create_inv st n d now sch erd h
  | opImport k d r now sch erd => exact importDB_inv st k d r now sch erd
  | opUpdate n d now => exact update_inv st n d now h
  | opRemove n => exact remove_inv st n
  | opConnect n sch erd => exact connect_inv st n sch erd h
  | opEvaluate r f => exact evaluate_inv st r f h
  | opExecute q r fl f ex c e => exact execute_inv st q r fl f ex c e h
  | opReload sch erd => exact reload_inv st sch erd h

lemma foldl_stepOp_inv (ops : List Op) :
    ∀ st : RegistryState, Inv st → Inv (ops.foldl stepOp st) := by
  induction ops with
  | nil => intro st h; exact h
  | cons op rest ih =>
    intro st h
    exact ih (stepOp st op) (stepOp_inv st op h)

/-! ### Claim theorems for the registry operations -/

/-- C9: the registry invariant — `active`, when present, names an entry of
`databases` — holds in the initial state (for any rehydrated `databases`,
since `active` is never persisted) and is preserved by every operation,
in success and failure alike, hence along every sequence of calls. -/
theorem registry_invariant_preserved :
    (∀ dbs : String → Option Database,
      Inv { active := none, databases := dbs }) ∧
    (∀ (st : RegistryState) (op : Op), Inv st → Inv (stepOp st op)) ∧
    (∀ ops : List Op, Inv (ops.foldl stepOp initialState)) := by
  refine ⟨?_, ?_, ?_⟩
  · intro dbs m hm
    exact Option.noConfusion hm
  · exact fun st op h => stepOp_inv st op h
  · intro ops
    exact foldl_stepOp_inv ops initialState (fun m hm => Option.noConfusion hm)

/-- Witness for `registry_invariant_preserved`: the preservation conjunct
applied to a concrete invariant-satisfying state and operation. -/
theorem registry_invariant_preserved_witness :
    Inv stFix ∧ Inv (stepOp stFix (Op.opRemove ("db"))) := by
  have hInv : Inv stFix := by
    intro m hm
    have hm2 : some ("db") = some m := hm
    injection hm2 with hm2
    subst hm2
    rfl
  exact ⟨hInv, registry_invariant_preserved.2.1 stFix (Op.opRemove ("db")) hInv⟩

/-- C10: `update` on a name missing from `databases` fails (in the source
the immer recipe throws before any field is written, so no state snapshot
is produced) and the registry state is completely unchanged. -/
theorem update_missing_unchanged (st : RegistryState) (name : String)
    (d : Option String) (now : String) (h : st.databases name = none) :
    update st name d now = (st, .error (.notFound name)) := by
  simp only [update, h]

/-- Witness for `update_missing_unchanged` at a concrete state and name. -/
theorem update_missing_unchanged_witness :
    stFix.databases ("nope") = none ∧
    update stFix ("nope") none ("t0") = (stFix, .error (.notFound ("nope"))) :=
  ⟨rfl, update_missing_unchanged stFix ("nope") none ("t0") rfl⟩

/-- C4: `evaluate`, `execute` and `reload` each fail when the registry's
active pointer is absent (the spec's name for this failure is
`NoActiveConnectionError`). -/
theorem no_active_connection_failures (st : RegistryState) (r : String)
    (f : FetchFn) (q : String) (rego : Option String) (fl : Bool)
    (ex : ExecFn) (c : String) (el : Nat) (sch : List DatabaseSchema)
    (erd : String) (h : st.active = none) :
    (evaluate st r f).2 = .error .noActiveConnection ∧
    (execute st q rego fl f ex c el).2 = .error .noActiveConnection ∧
    (reload st sch erd).2 = .error .noActiveConnection := by
  refine ⟨?_, ?_, ?_⟩
  · rw [evaluate_no_active h]
  · rw [execute_no_active h]
  · simp only [reload, h]

/-- Witness for `no_active_connection_failures` at the initial state. -/
theorem no_active_connection_failures_witness :
    initialState.active = none ∧
    (evaluate initialState ("p") okFetch).2 = .error .noActiveConnection ∧
    (execute initialState ("q") none false okFetch execOk ("t") 1).2 =
      .error .noActiveConnection ∧
    (reload initialState [] ("")).2 = .error .noActiveConnection :=
  ⟨rfl,
   (no_active_connection_failures initialState ("p") okFetch ("q") none false
      execOk ("t") 1 [] ("") rfl).1,
   (no_active_connection_failures initialState ("p") okFetch ("q") none false
      execOk ("t") 1 [] ("") rfl).2.1,
   (no_active_connection_failures initialState ("p") okFetch ("q") none false
      execOk ("t") 1 [] ("") rfl).2.2⟩

/-- C3: a response body carrying an error-code field makes `evaluate` fail
with an error carrying the body's `message` field, and the active
database's `rego`, `evaluated` and `filter` are left unchanged by the call
(the whole registry state is unchanged). -/
theorem evaluate_error_code_unchanged (st : RegistryState) (name : String)
    (db : Database) (r : String) (body : EvalResponse)
    (h1 : st.active = some name) (h2 : st.databases name = some db)
    (h3 : body.code.isSome = true) :
    evaluate st r (fun _ _ => .ok body) =
      (st, .error (.evaluation body.message)) ∧
    ((evaluate st r (fun _ _ => .ok body)).1.databases name).map
        (fun d => (d.rego, d.evaluated, d.filter)) =
      some (db.rego, db.evaluated, db.filter) := by
  have hmain := evaluate_code_error (r := r) (f := fun _ _ => .ok body) h1 h2 rfl h3
  exact ⟨hmain, by rw [hmain]; simp [h2]⟩

/-- Witness for `evaluate_error_code_unchanged` at the spec's example
response `{ code: "invalid", message: "bad rule" }`. -/
theorem evaluate_error_code_unchanged_witness :
    stFix.active = some ("db") ∧ stFix.databases ("db") = some dbFix ∧
    badBody.code.isSome = true ∧
    evaluate stFix ("p") (fun _ _ => .ok badBody) =
      (stFix, .error (.evaluation (some ("bad rule")))) :=
  ⟨rfl, rfl, rfl,
   (evaluate_error_code_unchanged stFix ("db") dbFix ("p") badBody rfl rfl
      rfl).1⟩

/-- C8: a successful evaluation (no error-code in the body) commits
`rego := policyText`, `evaluated := result` and `filter := result.query`
(absent when the policy defines no query) on the active database, and the
call returns the full parsed body. -/
theorem evaluate_success_commits (st : RegistryState) (name : String)
    (db : Database) (r : String) (body : EvalResponse)
    (h1 : st.active = some name) (h2 : st.databases name = some db)
    (h3 : body.code = none) :
    (evaluate st r (fun _ _ => .ok body)).2 = .ok body ∧
    (evaluate st r (fun _ _ => .ok body)).1.databases name =
      some ({ db with rego := some r, evaluated := body.result,
                      filter := body.result.bind EvalResult.query }) := by
  have hmain := evaluate_ok (r := r) (f := fun _ _ => .ok body) h1 h2 rfl h3
  refine ⟨by rw [hmain], by rw [hmain]; simp [setDB]⟩

/-- Witness for `evaluate_success_commits` at a concrete successful
response whose result carries a query fragment. -/
theorem evaluate_success_commits_witness :
    okBody.code = none ∧
    (evaluate stFix ("p") (fun _ _ => .ok okBody)).1.databases ("db") =
      some ({ dbFix with rego := some ("p"), evaluated := okBody.result,
                         filter := some ("WHERE x = 1") }) :=
  ⟨rfl,
   (evaluate_success_commits stFix ("db") dbFix ("p") okBody rfl rfl rfl).2⟩

/-- C5 counterexample: the request object the code builds carries the key
`rego_modules` with module name `main.rego`, not `policy_modules` with
module name `main` as the claim states; the two shapes differ at a concrete
input. -/
theorem evaluate_request_shape_counterexample :
    mkEvalRequest (some (.obj [])) (some (.obj [])) ("p") ≠
    mkEvalRequestSpec (some (.obj [])) (some (.obj [])) ("p") := by
  intro h
  simp [mkEvalRequest, mkEvalRequestSpec] at h

/-- C5 (amended): every `evaluate` call with an active session consumes
exactly one response from the HTTP layer — the POST of
`{ input, data, rego_modules: { "main.rego": policyText } }`
(absent `input`/`data` fields omitted, as `JSON.stringify` drops them),
built from the active database's current `input`/`data`, delivered to the
fixed relative endpoint `/v0/preview/conditions`. -/
theorem evaluate_request_shape (st : RegistryState) (name : String)
    (db : Database) (r : String) (f : FetchFn)
    (h1 : st.active = some name) (h2 : st.databases name = some db) :
    evaluate st r f =
      evaluate st r
        (fun _ _ => f evalEndpoint (mkEvalRequest db.input db.data r)) ∧
    mkEvalRequest db.input db.data r =
      .obj ((db.input.map (fun i => (("input"), i))).toList ++
            (db.data.map (fun d => (("data"), d))).toList ++
            [(("rego_modules"), .obj [(("main.rego"), .str r)])]) ∧
    evalEndpoint = ("/v0/preview/conditions") := by
  refine ⟨?_, rfl, rfl⟩
  simp only [evaluate, h1, h2]

/-- Witness for `evaluate_request_shape` at a concrete state and fetch
function. -/
theorem evaluate_request_shape_witness :
    stFix.active = some ("db") ∧
    evaluate stFix ("p") okFetch =
      evaluate stFix ("p")
        (fun _ _ => okFetch evalEndpoint
          (mkEvalRequest dbFix.input dbFix.data ("p"))) :=
  ⟨rfl, (evaluate_request_shape stFix ("db") dbFix ("p") okFetch rfl rfl).1⟩

/-- C2 counterexample: a failing `evaluate` call (structured error body)
leaves the registry — in particular the active database's `history`, here
empty — completely unchanged, so no error is recorded into history before
re-raising. -/
theorem evaluate_failure_no_history_entry :
    (evaluate stFix ("p") badFetch).2 =
      .error (.evaluation (some ("bad rule"))) ∧
    (evaluate stFix ("p") badFetch).1 = stFix ∧
    (stFix.databases ("db")).map (fun d => d.history) = some [] :=
  ⟨rfl, rfl, rfl⟩

/-- C2 (amended): only `execute` records errors into `history`, and only
for failures raised inside its try block (empty query, splicing, engine
execution); a failing `evaluate` — called directly or as `execute`'s
evaluation step — re-raises with the registry unchanged and no history
entry appended. -/
theorem error_history_recording (st st2 : RegistryState) (name : String)
    (db : Database) (r q : String) (rego : Option String) (fl : Bool)
    (f : FetchFn) (ex : ExecFn) (c : String) (el : Nat)
    (evF : Option String) (e : Err) :
    ((evaluate st r f).2 = .error e → (evaluate st r f).1 = st) ∧
    (st.active = some name → evalStep st rego f = (st2, .error e) →
      execute st q rego fl f ex c el = (st2, .error e) ∧ st2 = st) ∧
    (st.active = some name → evalStep st rego f = (st2, .ok evF) →
      st2.databases name = some db → runStmt q evF fl ex = .error e →
      ((execute st q rego fl f ex c el).1.databases name).map
          (fun d => d.history) =
        some (db.history ++
          [{ statement := q, createdAt := some c, error := some e.message,
             executionTime := some el }]) ∧
      (execute st q rego fl f ex c el).2 = .error e) := by
  refine ⟨fun he => evaluate_fail_unchanged he,
    fun h1 h2 => ⟨execute_eval_fail h1 h2, evalStep_fail_unchanged h2⟩,
    fun h1 h2 h3 h4 => ?_⟩
  constructor
  · rw [execute_run_fail h1 h2 h3 h4]; simp [setDB]
  · rw [execute_run_fail h1 h2 h3 h4]

/-- Witness for `error_history_recording`: its evaluate conjunct applied to
a concrete failing evaluation call. -/
theorem error_history_recording_witness :
    (evaluate stFix ("p") badFetch).2 =
      .error (.evaluation (some ("bad rule"))) ∧
    (evaluate stFix ("p") badFetch).1 = stFix :=
  ⟨rfl,
   (error_history_recording stFix stFix ("db") dbFix ("p") ("q") none false
      badFetch execOk ("t") 1 none (.evaluation (some ("bad rule")))).1 rfl⟩

/-- C1 counterexample: a call to `execute` with an active session whose
evaluation step fails is a failing call that appends no history entry, does
not commit `query`, and does not set `datagrid` to the empty sequence. -/
theorem execute_eval_failure_no_entry :
    (execute stFix ("SELECT 1") (some ("p")) true badFetch execOk
        ("t0") 5).2 =
      .error (.evaluation (some ("bad rule"))) ∧
    ((execute stFix ("SELECT 1") (some ("p")) true badFetch execOk
        ("t0") 5).1.databases ("db")).map
      (fun d => (d.history.length, d.query, d.datagrid)) =
      some (0, some ("old"), none) :=
  ⟨rfl, rfl⟩

/-- C1 (amended): for a call to `execute` with an active session whose
evaluation step does not fail: on success it appends exactly one history
entry whose `results` has one `(affectedRows, totalRecords)` element per
executed sub-statement and whose `error` is absent, and commits `query` and
the datagrid of all result sets; on a try-block failure it appends exactly
one entry with `error` set and `results` absent, commits `query`, sets
`datagrid` to the empty sequence, and the error is re-raised alongside
exactly this committed state.  When the evaluation step itself fails, that
failure is re-raised with no entry appended and no state change. -/
theorem execute_commits (st st2 : RegistryState) (name : String)
    (db : Database) (q query0 : String) (rego : Option String) (fl : Bool)
    (f : FetchFn) (ex : ExecFn) (c : String) (el : Nat)
    (evF : Option String) (e : Err) (rs : List PGResult)
    (h1 : st.active = some name) :
    (evalStep st rego f = (st2, .ok evF) → st2.databases name = some db →
      runStmt q evF fl ex = .ok (query0, rs) →
      execute st q rego fl f ex c el =
        ({ st2 with
             databases := setDB st2.databases name
               ({ db with query := some q,
                          datagrid := some (postgresTransformer rs),
                          history := db.history ++
                            [{ statement := q,
                               statementWithFilter := some query0,
                               createdAt := some c, executionTime := some el,
                               results := some (rs.map (fun rr =>
                                 { affectedRows := rr.affectedRows.getD 0,
                                   totalRecords := rr.rows.length })) }] }) },
         .ok rs)) ∧
    (evalStep st rego f = (st2, .ok evF) → st2.databases name = some db →
      runStmt q evF fl ex = .error e →
      execute st q rego fl f ex c el =
        ({ st2 with
             databases := setDB st2.databases name
               ({ db with query := some q, datagrid := some [],
                          history := db.history ++
                            [{ statement := q, createdAt := some c,
                               error := some e.message,
                               executionTime := some el }] }) },
         .error e)) ∧
    (evalStep st rego f = (st2, .error e) →
      execute st q rego fl f ex c el = (st2, .error e) ∧ st2 = st) :=
  ⟨fun h2 h3 h4 => execute_ok h1 h2 h3 h4,
   fun h2 h3 h4 => execute_run_fail h1 h2 h3 h4,
   fun h2 => ⟨execute_eval_fail h1 h2, evalStep_fail_unchanged h2⟩⟩

/-- Witness for `execute_commits`: its success conjunct applied to a
concrete call with no policy text. -/
theorem execute_commits_witness :
    runStmt ("SELECT 1") none false execOk = .ok (("SELECT 1"), rsFix) ∧
    execute stFix ("SELECT 1") none false okFetch execOk ("t0") 5 =
      ({ stFix with
           databases := setDB stFix.databases ("db")
             ({ dbFix with query := some ("SELECT 1"),
                           datagrid := some (postgresTransformer rsFix),
                           history := dbFix.history ++
                             [{ statement := ("SELECT 1"),
                                statementWithFilter := some ("SELECT 1"),
                                createdAt := some ("t0"),
                                executionTime := some 5,
                                results := some (rsFix.map (fun rr =>
                                  { affectedRows := rr.affectedRows.getD 0,
                                    totalRecords := rr.rows.length })) }] }) },
       .ok rsFix) :=
  ⟨rfl,
   (execute_commits stFix stFix ("db") dbFix ("SELECT 1") ("SELECT 1") none
      false okFetch execOk ("t0") 5 none Err.emptyQuery rsFix rfl).1 rfl rfl
      rfl⟩

end DBStore
